import Mathlib

/-!
# Verification of the creato-ai workflow state machine

Shallow embedding of the content-creation workflow engine:
`agent_runner.py` (the implementation wired into `main.py`),
`agent_runner_new.py` (the divergent duplicate of the same handlers),
and `workflow_manager.py` (registry, checkpointing, subscriber fan-out).

Modelling conventions:
* Python strings are Lean `String`s; `str.isdigit`, `str.lower`,
  `str.strip`, and the `in` substring operator are embedded below as
  executable functions over character lists.
* `datetime` values are opaque: the engine never computes with them, it
  only stores and copies them, so timestamps are carried as `String`s
  (message `id`/`timestamp` fields produced by `uuid4`/`utcnow` inside
  `add_message` are environment-supplied and do not affect any claim;
  they are omitted from the message record).
* LLM and publisher calls are suspension points; their outcomes are
  supplied by an `Env` record (the draft text returned by
  `_draft_linkedin_post`, the idea list returned by
  `_generate_linkedin_ideas`, whether `LINKEDIN_ACCESS_TOKEN` is set,
  and the outcome of `publish_to_linkedin`).
* Apostrophes inside user-visible message texts are rendered with the
  typographic character U+2019.
-/

/-- ASCII digit test (`'0'` to `'9'`). -/
def isDigitChar (c : Char) : Bool :=
  (48 ≤ c.toNat) && (c.toNat ≤ 57)

/-- `str.isdigit()` (restricted to ASCII digits): nonempty and all digits. -/
def pyIsDigit (t : String) : Bool :=
  !t.toList.isEmpty && t.toList.all (fun c => isDigitChar c)

/-- ASCII lower-casing of one character (`str.lower` on the keyword sets and
step names used here only involves ASCII). -/
def lcChar (c : Char) : Char :=
  if 65 ≤ c.toNat ∧ c.toNat ≤ 90 then Char.ofNat (c.toNat + 32) else c

/-- `str.lower()`. -/
def pyLower (s : String) : String :=
  String.mk (s.data.map lcChar)

/-- ASCII whitespace (space, tab, newline, carriage return). -/
def isSpaceChar (c : Char) : Bool :=
  (c.toNat == 32) || (c.toNat == 9) || (c.toNat == 10) || (c.toNat == 13)

/-- `str.strip()`. -/
def pyStrip (s : String) : String :=
  String.mk (((s.data.dropWhile isSpaceChar).reverse.dropWhile isSpaceChar).reverse)

/-- Python truthiness of a string (`if user_message:`): nonempty. -/
def strTruthy (s : String) : Bool :=
  !s.data.isEmpty

/-- `int(t)` for a digit string `t` (tolerates leading zeros, as Python). -/
def digitsToNat (t : String) : Nat :=
  t.toList.foldl (fun n c => n * 10 + (c.toNat - 48)) 0

/-- Auxiliary: `p` is a prefix of `l`, as a boolean on character lists. -/
def listStartsWith : List Char → List Char → Bool
  | [], _ => true
  | _ :: _, [] => false
  | p :: ps, c :: cs => p = c && listStartsWith ps cs

/-- Auxiliary: `pat` occurs as a contiguous sublist of the second list. -/
def hasSubList (pat : List Char) : List Char → Bool
  | [] => pat.isEmpty
  | c :: cs => listStartsWith pat (c :: cs) || hasSubList pat cs

/-- Python `pat in s` substring test. -/
def pyIn (pat s : String) : Bool :=
  hasSubList pat.toList s.toList

/-- `re.match(r"^https?://", t)` succeeds: `t` starts with `http://` or `https://`. -/
def urlShape (t : String) : Bool :=
  listStartsWith "http://".toList t.toList || listStartsWith "https://".toList t.toList

/-- A generated idea (`Idea` pydantic model: title + summary). -/
structure Idea where
  title : String
  summary : String
deriving DecidableEq, Repr

/-- A chat-visible log entry appended by `LinkedInWorkflowState.add_message`
(the environment-supplied `id`/`timestamp` fields are omitted, see header). -/
structure WMessage where
  sender : String
  content : String
  message_type : String
deriving DecidableEq, Repr

/-- `LinkedInWorkflowState` from `agent_runner.py` / `agent_runner_new.py`. -/
structure WorkflowState where
  workflow_id : String
  user_input : String
  current_step : String
  user_niche : String
  content_ideas : Option (List Idea)
  selected_idea : Option Idea
  post_draft : Option String
  media_url : Option String
  media_asset_urn : Option String
  error : Option String
  messages : List WMessage
  status : String
deriving DecidableEq, Repr

/-- `workflow_state.add_message(sender, content, message_type)`. -/
def addMsg (s : WorkflowState) (sender content mtype : String) : WorkflowState :=
  { s with messages := s.messages ++ [⟨sender, content, mtype⟩] }

/-- Python truthiness of `state.content_ideas` (`None` and `[]` are falsy). -/
def ideasTruthy : Option (List Idea) → Bool
  | none => false
  | some l => !l.isEmpty

/-- Outcomes of the external calls reached from one step execution. -/
structure Env where
  draftResult : String
  regenIdeas : List Idea
  hasToken : Bool
  uploadUrn : Option String
  uploadError : Option String
  publishError : Option String
deriving Repr

/-- `AgentRunner._handle_approval_realtime` from `agent_runner.py` (the
implementation used by `main.py`): `publish`/`post` move to `publishing`,
else `change`/`edit` move to `refining`, else a prompt is appended. -/
def approvalStep (s : WorkflowState) (userMessage : String) : WorkflowState :=
  let t := pyLower userMessage
  if pyIn "publish" t || pyIn "post" t then
    addMsg { s with current_step := "publishing" } "ai"
      "Great! I’m ready to publish your LinkedIn post. Do you have an image or video URL to include? (Type ’none’ if not)"
      "agent_result"
  else if pyIn "change" t || pyIn "edit" t then
    { addMsg s "ai" "What changes would you like me to make to the post?" "agent_result"
        with current_step := "refining" }
  else
    addMsg s "ai"
      "I’m ready to publish your post when you are. Type ’publish’ to proceed, or let me know what changes you’d like."
      "agent_result"

/-- `AgentRunner._handle_approval_realtime` from `agent_runner_new.py`:
`publish`/`post` move to `publishing`, else `refine`/`change` move to
`refining`, else `new idea` returns to selection, else a prompt. -/
def approvalStepNew (s : WorkflowState) (userMessage : String) : WorkflowState :=
  let t := pyLower userMessage
  if pyIn "publish" t || pyIn "post" t then
    addMsg (addMsg { s with current_step := "publishing", status := "processing" }
        "ai" "🚀 **Great! I’m ready to publish your LinkedIn post.**" "agent_result")
      "ai" "📸 **Do you have an image or video URL to include?** (Type the URL, or type ’none’ if not)"
      "agent_result"
  else if pyIn "refine" t || pyIn "change" t then
    { addMsg s "ai"
        "✏️ **What changes would you like me to make to the post?** Be specific about what you’d like to modify."
        "agent_result"
      with current_step := "refining" }
  else if pyIn "new idea" t then
    let ideasText := String.intercalate "\n"
      (((s.content_ideas.getD []).enum.map
        (fun p => "**" ++ toString (p.1 + 1) ++ ".** " ++ p.2.title ++ "\n   _" ++ p.2.summary ++ "_")))
    addMsg (addMsg { s with current_step := "waiting_for_selection", status := "waiting_for_user" }
        "ai" "🔄 **Let’s go back to idea selection.**" "agent_result")
      "ai" ("🎯 **Here are your content ideas again:**\n\n" ++ ideasText ++
        "\n\n**Please select an idea (1-" ++ toString (s.content_ideas.getD []).length ++ ")**")
      "agent_result"
  else
    addMsg s "ai"
      "🤔 **I’m ready to publish when you are.** Please type:\n• **’publish’** to proceed\n• **’refine’** to make changes\n• **’new idea’** to select a different idea"
      "agent_result"

/-- `AgentRunner.process_workflow_message` (agent_runner.py), branch for
`current_step` in `start`/`waiting_for_selection` (lines 433-497): a digit
selects an idea and drafts a post when in range, `refine`/`more`
regenerates ideas, anything else gets a clarify message. -/
def selectionStep (env : Env) (s : WorkflowState) (userMessage : String) : WorkflowState :=
  let text := pyLower (pyStrip userMessage)
  if pyIsDigit text && ideasTruthy s.content_ideas then
    let ideas := s.content_ideas.getD []
    let idx := digitsToNat text
    if 1 ≤ idx ∧ idx ≤ ideas.length then
      let sel := ideas.getD (idx - 1) ⟨"", ""⟩
      let s1 := addMsg { s with selected_idea := some sel } "ai"
        ("Selected idea #" ++ toString idx ++ ": " ++ sel.title) "agent_result"
      let s2 := addMsg s1 "ai" "Drafting your LinkedIn post..." "agent_result"
      let s3 := { s2 with post_draft := some env.draftResult,
                          current_step := "waiting_for_approval",
                          status := "waiting_for_user" }
      addMsg s3 "ai" "Draft ready. Type ’publish’ or describe changes." "agent_result"
    else
      addMsg s "ai" ("Please enter a number between 1 and " ++ toString ideas.length ++ ".")
        "agent_result"
  else if pyIn "refine" text || pyIn "more" text then
    let s1 := addMsg s "ai" "Generating new ideas..." "agent_result"
    let s2 := { s1 with content_ideas := some env.regenIdeas }
    if !env.regenIdeas.isEmpty then
      let ideasText := String.intercalate "\n"
        (env.regenIdeas.enum.map (fun p => toString (p.1 + 1) ++ ". " ++ p.2.title))
      addMsg s2 "ai" ("Here are some refined ideas:\n\n" ++ ideasText ++ "\n\nSelect 1-" ++
        toString env.regenIdeas.length ++ ".") "agent_result"
    else
      addMsg s2 "ai" "Couldn’t generate new ideas. Try different instructions." "agent_result"
  else
    addMsg s "ai" "Please select an idea by number, or type ’refine’." "agent_result"

/-- `process_workflow_message` first records the user message (line 430),
then dispatches to the selection branch. -/
def processSelectionMessage (env : Env) (s : WorkflowState) (userMessage : String) :
    WorkflowState :=
  selectionStep env (addMsg s "user" userMessage "chat") userMessage

/-- The mutated state together with the `current_step`/`status` fields of the
returned response dict (which can differ from the stored state, as in the
cancel branch of `_handle_idea_selection_realtime`). -/
structure SelResult where
  state : WorkflowState
  reportedStep : String
  reportedStatus : String
deriving Repr

/-- `AgentRunner._handle_idea_selection_realtime` from `agent_runner_new.py`
(lines 258-328): digit selection, `refine`/`more` regeneration, `help`,
`cancel` (sets only `status`, reports step `cancelled`), else clarify. -/
def selectionStepNew (env : Env) (s : WorkflowState) (userMessage : String) : SelResult :=
  if pyIsDigit userMessage then
    let selection := digitsToNat userMessage
    let ideas := s.content_ideas.getD []
    if 1 ≤ selection ∧ selection ≤ ideas.length then
      let sel := ideas.getD (selection - 1) ⟨"", ""⟩
      let s1 := { s with selected_idea := some sel, current_step := "drafting",
                         status := "processing" }
      let s2 := addMsg s1 "ai" ("🎯 **Great choice!** I’ve selected idea #" ++
        toString selection ++ ": **" ++ sel.title ++ "**") "agent_result"
      let s3 := addMsg s2 "ai" "✍️ **Now I’m drafting your LinkedIn post...**" "agent_result"
      let s4 := { s3 with post_draft := some env.draftResult }
      let s5 := addMsg s4 "ai" ("📝 **Here’s your LinkedIn post draft:**\n\n" ++
        env.draftResult ++
        "\n\n**What would you like me to do?**\n• Type ’**publish**’ to post this to LinkedIn\n• Type ’**refine**’ to make changes\n• Type ’**new idea**’ to select a different idea")
        "agent_result"
      let s6 := { s5 with current_step := "waiting_for_approval", status := "waiting_for_user" }
      ⟨s6, s6.current_step, s6.status⟩
    else
      let s1 := addMsg s "ai" ("❌ Please select a valid number between 1 and " ++
        toString ideas.length) "agent_result"
      ⟨s1, s1.current_step, s1.status⟩
  else if pyIn "refine" (pyLower userMessage) || pyIn "more" (pyLower userMessage) then
    let s1 := addMsg s "ai" "🔄 **Generating new ideas...**" "agent_result"
    if !env.regenIdeas.isEmpty then
      let s2 := { s1 with content_ideas := some env.regenIdeas }
      let ideasText := String.intercalate "\n"
        (env.regenIdeas.enum.map
          (fun p => "**" ++ toString (p.1 + 1) ++ ".** " ++ p.2.title ++ "\n   _" ++
            p.2.summary ++ "_"))
      let s3 := addMsg s2 "ai" ("✨ **Here are some refined ideas:**\n\n" ++ ideasText ++
        "\n\n**Please select an idea (1-" ++ toString env.regenIdeas.length ++ ")**")
        "agent_result"
      ⟨s3, s3.current_step, s3.status⟩
    else
      let s2 := addMsg s1 "ai"
        "❌ Sorry, I couldn’t generate new ideas. Please try a different approach."
        "agent_result"
      ⟨s2, s2.current_step, s2.status⟩
  else if pyIn "help" (pyLower userMessage) then
    let s1 := addMsg s "ai"
      "💡 **How to use this workflow:**\n\n• **Type a number (1-5)** to select a content idea\n• **Type ’refine’** to generate new ideas\n• **Type ’help’** to see this message again\n• **Type ’cancel’** to stop the workflow"
      "agent_result"
    ⟨s1, s1.current_step, s1.status⟩
  else if pyIn "cancel" (pyLower userMessage) then
    let s1 := { s with status := "cancelled" }
    let s2 := addMsg s1 "ai" "❌ **Workflow cancelled.** You can start a new one anytime."
      "agent_result"
    ⟨s2, "cancelled", s2.status⟩
  else
    let s1 := addMsg s "ai" ("🤔 I didn’t understand that. Please select an idea by typing its number (1-" ++
      toString (s.content_ideas.getD []).length ++ ") or type ’help’ for assistance.")
      "agent_result"
    ⟨s1, s1.current_step, s1.status⟩

/-- Python truthiness of `workflow_state.media_url`. -/
def mediaTruthy : Option String → Bool
  | none => false
  | some m => strTruthy m

/-- Result of one run of the publishing handler, recording whether the
external media-upload and publish calls were reached. -/
structure PubOutcome where
  state : WorkflowState
  uploadAttempted : Bool
  publishAttempted : Bool
deriving Repr

/-- `AgentRunner._handle_publishing` from `agent_runner.py` (lines 291-363):
a nonempty input other than `none` (after strip/lower) must match
`^https?://` or one validation message is appended and the handler returns;
then missing `LINKEDIN_ACCESS_TOKEN` yields `status = error` before any
publish call; otherwise upload (if media present) and publish are attempted,
with `publish_to_linkedin` errors surfacing as `status = error`. -/
def publishingStep (env : Env) (s : WorkflowState) (userMessage : String) : PubOutcome :=
  let validated : Option WorkflowState :=
    if !strTruthy userMessage then some s
    else
      let mediaInput := pyStrip userMessage
      if pyLower mediaInput = "none" then some s
      else if urlShape mediaInput then
        some (addMsg { s with media_url := some mediaInput } "ai"
          ("Got it! I’ll include the media: " ++ mediaInput) "agent_result")
      else none
  match validated with
  | none =>
    ⟨addMsg s "ai" "⚠️ Please provide a valid image/video URL or type ’none’." "agent_result",
      false, false⟩
  | some s1 =>
    if !env.hasToken then
      let s2 := addMsg s1 "ai" "❌ LinkedIn credentials not configured (LINKEDIN_ACCESS_TOKEN)."
        "agent_result"
      ⟨{ s2 with status := "error" }, false, false⟩
    else
      let s2 := addMsg s1 "ai" "Publishing your post to LinkedIn..." "agent_result"
      let merged :=
        if mediaTruthy s2.media_url then
          ({ s2 with media_asset_urn := env.uploadUrn.or s2.media_asset_urn,
                     error := env.uploadError.or s2.error }, true)
        else (s2, false)
      let s3 := merged.1
      let up := merged.2
      match env.publishError with
      | some e =>
        ⟨{ addMsg s3 "ai" ("❌ Error publishing to LinkedIn: " ++ e) "agent_result"
            with status := "error" }, up, true⟩
      | none =>
        let s4 := { s3 with status := "completed" }
        ⟨addMsg s4 "ai" "✅ Your LinkedIn post has been published successfully!" "agent_result",
          up, true⟩

/-- `AgentMessage` pydantic model (`models.py`); the `datetime` timestamp is
carried as its serialized string (see header). -/
structure AgentMessage where
  sender : String
  content : String
  timestamp : String
  message_type : String
deriving DecidableEq, Repr

/-- `AgentResult` pydantic model (`models.py`). -/
structure AgentResult where
  agent_name : String
  result : String
  timestamp : String
deriving DecidableEq, Repr

/-- `WorkflowThread` pydantic model (`models.py`). -/
structure WorkflowThread where
  id : String
  user_input : String
  status : String
  created_at : String
  agents : List String
deriving DecidableEq, Repr

/-- The four in-memory registries of `WorkflowManager` (`workflow_manager.py`),
each a dict keyed by workflow id. -/
structure Manager where
  workflows : String → Option WorkflowThread
  workflow_status : String → Option String
  agent_results : String → Option (List AgentResult)
  workflow_messages : String → Option (List AgentMessage)

/-- Point update of a registry dict. -/
def setMap {α : Type} (m : String → Option α) (k : String) (v : Option α) :
    String → Option α :=
  fun k2 => if k2 = k then v else m k2

/-- The JSON record written by `WorkflowManager._save_checkpoint`: workflow,
status, messages, agent results, and a save timestamp.  JSON `null` and an
absent key are conflated as `none` (our saves always write every key). -/
structure Checkpoint where
  workflow : Option WorkflowThread
  status : Option String
  messages : List AgentMessage
  agent_results : List AgentResult
  saved_at : String
deriving DecidableEq, Repr

/-- The checkpoint directory `.wf_checkpoints`: one file per workflow id
(filenames are unique, so this is an association list keyed by id). -/
abbrev FS : Type := List (String × Checkpoint)

/-- Write (create or overwrite) the file for `id`. -/
def fsWrite (fs : FS) (id : String) (c : Checkpoint) : FS :=
  match fs with
  | [] => [(id, c)]
  | (k, v) :: rest => if k = id then (id, c) :: rest else (k, v) :: fsWrite rest id c

/-- Read the file for `id` (`None` when `path.exists()` is false). -/
def fsRead (fs : FS) (id : String) : Option Checkpoint :=
  match fs with
  | [] => none
  | (k, v) :: rest => if k = id then some v else fsRead rest id

/-- The record assembled by `_save_checkpoint` (lines 190-203). -/
def mkCheckpoint (m : Manager) (id now : String) : Checkpoint :=
  { workflow := m.workflows id
    status := m.workflow_status id
    messages := (m.workflow_messages id).getD []
    agent_results := (m.agent_results id).getD []
    saved_at := now }

/-- `WorkflowManager._save_checkpoint`: serialize the current registries for
`id` into the checkpoint file. -/
def saveCheckpoint (m : Manager) (fs : FS) (id now : String) : FS :=
  fsWrite fs id (mkCheckpoint m id now)

/-- Hydration performed by `load_checkpoint` once the file was read (lines
213-218): the workflow and status are restored only when the stored workflow
is non-null; messages and agent results are always restored. -/
def hydrate (m : Manager) (id : String) (data : Checkpoint) : Manager :=
  let m1 :=
    match data.workflow with
    | some wf =>
      { m with workflows := setMap m.workflows id (some wf)
               workflow_status := setMap m.workflow_status id
                 (some (data.status.getD wf.status)) }
    | none => m
  { m1 with workflow_messages := setMap m1.workflow_messages id (some data.messages)
            agent_results := setMap m1.agent_results id (some data.agent_results) }

/-- `WorkflowManager.load_checkpoint` (lines 205-223): `None` and no mutation
when the file is absent, else hydrate and return the parsed record. -/
def loadCheckpoint (m : Manager) (fs : FS) (id : String) : Option Checkpoint × Manager :=
  match fsRead fs id with
  | none => (none, m)
  | some data => (some data, hydrate m id data)

/-- `WorkflowManager.load_all_checkpoints` (lines 225-229): hydrate every
persisted record (one file per id, iterated in directory order). -/
def loadAllCheckpoints (m : Manager) (fs : FS) : Manager :=
  fs.foldl (fun acc e => hydrate acc e.1 e.2) m

/-- The manager with empty registries (a fresh `WorkflowManager()`,
before any checkpoint is loaded). -/
def freshManager : Manager :=
  ⟨fun _ => none, fun _ => none, fun _ => none, fun _ => none⟩

/-- Manager registries together with the checkpoint directory. -/
structure MSystem where
  mgr : Manager
  fs : FS

/-- `WorkflowManager.add_workflow` (lines 21-30): registers the workflow,
mirrors its status, resets results and messages to empty, saves a checkpoint. -/
def addWorkflowFn (s : MSystem) (wf : WorkflowThread) (now : String) : MSystem :=
  let m2 : Manager :=
    { workflows := setMap s.mgr.workflows wf.id (some wf)
      workflow_status := setMap s.mgr.workflow_status wf.id (some wf.status)
      agent_results := setMap s.mgr.agent_results wf.id (some [])
      workflow_messages := setMap s.mgr.workflow_messages wf.id (some []) }
  { mgr := m2, fs := saveCheckpoint m2 s.fs wf.id now }

/-- `WorkflowManager.update_workflow_status` (lines 40-47): guarded by
`workflow_id in self.workflows`; updates the thread and the status mirror,
saves a checkpoint. -/
def updateStatusFn (s : MSystem) (id status now : String) : MSystem :=
  match s.mgr.workflows id with
  | none => s
  | some wf =>
    let m2 := { s.mgr with
      workflows := setMap s.mgr.workflows id (some { wf with status := status })
      workflow_status := setMap s.mgr.workflow_status id (some status) }
    { mgr := m2, fs := saveCheckpoint m2 s.fs id now }

/-- `WorkflowManager.add_message` (lines 72-83): guarded by
`workflow_id in self.workflow_messages`; appends one `AgentMessage`
(type `chat` for the user, `agent_result` otherwise), saves a checkpoint. -/
def addMessageFn (s : MSystem) (id content sender now : String) : MSystem :=
  match s.mgr.workflow_messages id with
  | none => s
  | some msgs =>
    let msg : AgentMessage :=
      { sender := sender, content := content, timestamp := now
        message_type := if sender = "user" then "chat" else "agent_result" }
    let m2 := { s.mgr with
      workflow_messages := setMap s.mgr.workflow_messages id (some (msgs ++ [msg])) }
    { mgr := m2, fs := saveCheckpoint m2 s.fs id now }

/-- `WorkflowManager.add_agent_result` (lines 49-70): guarded by
`workflow_id in self.agent_results`; appends the result, then calls
`add_message(workflow_id, result, agent_name)`, then saves a checkpoint. -/
def addAgentResultFn (s : MSystem) (id agent result now : String) : MSystem :=
  match s.mgr.agent_results id with
  | none => s
  | some ars =>
    let m2 := { s.mgr with
      agent_results := setMap s.mgr.agent_results id (some (ars ++ [⟨agent, result, now⟩])) }
    let s2 := addMessageFn { mgr := m2, fs := s.fs } id result agent now
    { mgr := s2.mgr, fs := saveCheckpoint s2.mgr s2.fs id now }

/-- `WorkflowManager.delete_workflow` (lines 113-127): removes the four
in-memory registry entries; the checkpoint directory is not touched. -/
def deleteWorkflowFn (s : MSystem) (id : String) : MSystem :=
  { mgr :=
      { workflows := setMap s.mgr.workflows id none
        workflow_status := setMap s.mgr.workflow_status id none
        agent_results := setMap s.mgr.agent_results id none
        workflow_messages := setMap s.mgr.workflow_messages id none }
    fs := s.fs }

/-- The registry-mutating operations of `WorkflowManager` (subscription and
read-only queries are omitted: they do not touch the message log). -/
inductive Op where
  | addWorkflow (wf : WorkflowThread) (now : String)
  | updateStatus (id status now : String)
  | addAgentResult (id agent result now : String)
  | addMessage (id content sender now : String)
  | deleteWorkflow (id : String)
deriving DecidableEq, Repr

/-- Dispatch one operation. -/
def applyOp (s : MSystem) : Op → MSystem
  | Op.addWorkflow wf now => addWorkflowFn s wf now
  | Op.updateStatus id status now => updateStatusFn s id status now
  | Op.addAgentResult id agent result now => addAgentResultFn s id agent result now
  | Op.addMessage id content sender now => addMessageFn s id content sender now
  | Op.deleteWorkflow id => deleteWorkflowFn s id

/-- Length of the message log as observed through `get_workflow_messages`
(which defaults to `[]` for an unknown id). -/
def msgLog (s : MSystem) (id : String) : List AgentMessage :=
  (s.mgr.workflow_messages id).getD []

/-- One run of a subscriber callback inside `_notify_subscribers`
(lines 253-258): a raised exception is caught and turned into the printed
log line; a normal return produces no log line. -/
def runCallback (cb : String → Except String Unit) (d : String) : Option String :=
  match cb d with
  | Except.ok _ => none
  | Except.error e => some ("Error in subscriber callback: " ++ e)

/-- `WorkflowManager._notify_subscribers`: every registered callback is
invoked in order inside its own try/except; the function itself always
returns normally (it has no raise path), yielding the per-callback
caught-error log. -/
def notifySubscribers (cbs : List (String → Except String Unit)) (d : String) :
    List (Option String) :=
  cbs.map (fun cb => runCallback cb d)

/-- Observable content of the checkpoint file during `_save_checkpoint`:
`none` = absent, `some none` = opened and truncated by `open("w")` but not
yet written, `some (some c)` = the complete record. -/
def FileObs : Type := Option (Option Checkpoint)

/-- The sequence of file states a concurrent reader can observe during
`_save_checkpoint` (lines 200-201): `path.open("w")` truncates the target
file in place, then `json.dump` writes the record. -/
def saveWriteTrace (m : Manager) (id now : String) : List FileObs :=
  [some none, some (some (mkCheckpoint m id now))]

/-- A file observation is complete-or-absent (the discipline §4.3 demands). -/
def completeOrAbsent : FileObs → Bool
  | none => true
  | some none => false
  | some (some _) => true

/-- Concrete fixture: a generated idea. -/
def ideaA : Idea := ⟨"AI agents in production", "How teams ship agents"⟩

/-- Concrete fixture: a second generated idea. -/
def ideaB : Idea := ⟨"Prompt engineering myths", "What actually matters"⟩

/-- Concrete fixture: a workflow waiting at idea selection with two ideas. -/
def sampleSelState : WorkflowState :=
  { workflow_id := "wf1"
    user_input := "linkedin post about AI"
    current_step := "waiting_for_selection"
    user_niche := "AI"
    content_ideas := some [ideaA, ideaB]
    selected_idea := none
    post_draft := none
    media_url := none
    media_asset_urn := none
    error := none
    messages := []
    status := "waiting_for_user" }

/-- Concrete fixture: the same workflow waiting at draft approval. -/
def sampleApprState : WorkflowState :=
  { sampleSelState with
    current_step := "waiting_for_approval"
    selected_idea := some ideaA
    post_draft := some "Draft text" }

/-- Concrete fixture: the same workflow at the publishing step. -/
def samplePubState : WorkflowState :=
  { sampleApprState with
    current_step := "publishing" }

/-- Concrete fixture: external-call outcomes with credentials configured and
all calls succeeding. -/
def sampleEnv : Env :=
  { draftResult := "Draft text"
    regenIdeas := []
    hasToken := true
    uploadUrn := none
    uploadError := none
    publishError := none }

/-- Concrete fixture: external-call outcomes with no LinkedIn credentials. -/
def sampleEnvNoTok : Env :=
  { sampleEnv with hasToken := false }

/-- Concrete fixture: a stored `WorkflowThread`. -/
def wfEx : WorkflowThread :=
  ⟨"wf1", "linkedin post about AI", "waiting_for_selection", "2024-01-01 00:00:00",
    ["linkedin_workflow"]⟩

/-- Concrete fixture: a stored `AgentMessage`. -/
def amEx : AgentMessage :=
  ⟨"user", "linkedin post about AI", "2024-01-01 00:00:01", "chat"⟩

/-- Concrete fixture: a stored `AgentResult`. -/
def arEx : AgentResult :=
  ⟨"ideation_agent", "Generated 5 content ideas", "2024-01-01 00:00:02"⟩

/-- Concrete fixture: a manager holding one workflow with one message. -/
def mgrEx : Manager :=
  { workflows := setMap (fun _ => none) "wf1" (some wfEx)
    workflow_status := setMap (fun _ => none) "wf1" (some "waiting_for_selection")
    agent_results := setMap (fun _ => none) "wf1" (some [arEx])
    workflow_messages := setMap (fun _ => none) "wf1" (some [amEx]) }

/-- Concrete fixture: the manager above with an empty checkpoint directory. -/
def sysEx : MSystem := { mgr := mgrEx, fs := [] }

/-- Concrete fixture: a subscriber callback that returns normally. -/
def goodCb : String → Except String Unit := fun _ => Except.ok ()

/-- Concrete fixture: a subscriber callback that raises. -/
def badCb : String → Except String Unit := fun _ => Except.error "boom"

/-- Concrete fixture: a freshly constructed manager system. -/
def sysFresh : MSystem := ⟨freshManager, []⟩

/-- Concrete fixture: the fresh system after `add_workflow(wfEx)`. -/
def sysW : MSystem := addWorkflowFn sysFresh wfEx "t0"

/-- Helper: reading back the file just written returns the written record. -/
theorem fsRead_fsWrite_self (fs : FS) (id : String) (c : Checkpoint) :
    fsRead (fsWrite fs id c) id = some c := by
  induction fs with
  | nil => simp [fsWrite, fsRead]
  | cons hd tl ih =>
    obtain ⟨k, v⟩ := hd
    by_cases hk : k = id
    · subst hk
      simp [fsWrite, fsRead]
    · simp [fsWrite, fsRead, hk, ih]

/-- Helper: hydrating checkpoint data for one id leaves every other id's
registry entries unchanged. -/
theorem hydrate_ne (m : Manager) (k id : String) (d : Checkpoint) (h : ¬ (k = id)) :
    (hydrate m k d).workflows id = m.workflows id ∧
    (hydrate m k d).workflow_status id = m.workflow_status id ∧
    (hydrate m k d).workflow_messages id = m.workflow_messages id ∧
    (hydrate m k d).agent_results id = m.agent_results id := by
  have h2 : ¬ (id = k) := fun he => h he.symm
  cases hw : d.workflow <;> simp [hydrate, hw, setMap, h2]

/-- Helper: an id that is not among the checkpoint filenames reads as absent. -/
theorem fsRead_eq_none (fs : FS) (id : String) (h : id ∉ fs.map Prod.fst) :
    fsRead fs id = none := by
  induction fs with
  | nil => rfl
  | cons hd tl ih =>
    obtain ⟨k, v⟩ := hd
    have hk : ¬ (k = id) := by
      intro he
      exact h (by simp [he])
    have htl : id ∉ tl.map Prod.fst := by
      intro hmem
      exact h (by simp [hmem])
    simp [fsRead, hk, ih htl]

/-- Helper: `load_all_checkpoints` does not touch an id with no file. -/
theorem loadAll_preserves (fs : FS) (m : Manager) (id : String)
    (h : fsRead fs id = none) :
    (loadAllCheckpoints m fs).workflows id = m.workflows id ∧
    (loadAllCheckpoints m fs).workflow_status id = m.workflow_status id ∧
    (loadAllCheckpoints m fs).workflow_messages id = m.workflow_messages id ∧
    (loadAllCheckpoints m fs).agent_results id = m.agent_results id := by
  induction fs generalizing m with
  | nil => exact ⟨rfl, rfl, rfl, rfl⟩
  | cons hd tl ih =>
    obtain ⟨k, v⟩ := hd
    have hk : ¬ (k = id) := by
      intro he
      rw [fsRead, if_pos he] at h
      exact Option.noConfusion h
    have htl : fsRead tl id = none := by
      rw [fsRead, if_neg hk] at h
      exact h
    have e : loadAllCheckpoints m ((k, v) :: tl) = loadAllCheckpoints (hydrate m k v) tl := rfl
    obtain ⟨i1, i2, i3, i4⟩ := ih (hydrate m k v) htl
    obtain ⟨p1, p2, p3, p4⟩ := hydrate_ne m k id v hk
    exact ⟨by rw [e, i1, p1], by rw [e, i2, p2], by rw [e, i3, p3], by rw [e, i4, p4]⟩

/-- Helper: `load_all_checkpoints` rehydrates the registry entries of every id
whose checkpoint file is present (filenames being unique in a directory). -/
theorem loadAll_found (fs : FS) (m : Manager) (id : String) (c : Checkpoint)
    (wf : WorkflowThread) (h : fsRead fs id = some c) (hnd : (fs.map Prod.fst).Nodup)
    (hwf : c.workflow = some wf) :
    (loadAllCheckpoints m fs).workflows id = some wf ∧
    (loadAllCheckpoints m fs).workflow_status id = some (c.status.getD wf.status) ∧
    (loadAllCheckpoints m fs).workflow_messages id = some c.messages ∧
    (loadAllCheckpoints m fs).agent_results id = some c.agent_results := by
  induction fs generalizing m with
  | nil => exact Option.noConfusion h
  | cons hd tl ih =>
    obtain ⟨k, v⟩ := hd
    have e : loadAllCheckpoints m ((k, v) :: tl) = loadAllCheckpoints (hydrate m k v) tl := rfl
    by_cases hk : k = id
    · have hv : v = c := by
        rw [fsRead, if_pos hk] at h
        exact Option.some.inj h
      subst hv
      subst hk
      rw [List.map_cons] at hnd
      have hnotin : k ∉ tl.map Prod.fst := (List.nodup_cons.mp hnd).1
      have htl : fsRead tl k = none := fsRead_eq_none tl k hnotin
      obtain ⟨p1, p2, p3, p4⟩ := loadAll_preserves tl (hydrate m k v) k htl
      refine ⟨?_, ?_, ?_, ?_⟩ <;> rw [e]
      · rw [p1]
        simp [hydrate, hwf, setMap]
      · rw [p2]
        simp [hydrate, hwf, setMap]
      · rw [p3]
        simp [hydrate, hwf, setMap]
      · rw [p4]
        simp [hydrate, hwf, setMap]
    · have htl : fsRead tl id = some c := by
        rw [fsRead, if_neg hk] at h
        exact h
      rw [List.map_cons] at hnd
      have hnd2 : (tl.map Prod.fst).Nodup := (List.nodup_cons.mp hnd).2
      obtain ⟨q1, q2, q3, q4⟩ := ih (hydrate m k v) htl hnd2
      exact ⟨by rw [e, q1], by rw [e, q2], by rw [e, q3], by rw [e, q4]⟩

/-- C1: in the `waiting_for_selection` step (live handler, including the user
echo recorded by `process_workflow_message`), a numeric input `i` is accepted
— `selected_idea` becomes the `i`-th idea and the step proceeds to
`waiting_for_approval` after draft generation — if and only if
`1 ≤ i ≤ len(content_ideas)`; an out-of-range number (including `0`; a
negative sign makes the input non-numeric) is rejected with one range-error
message, and a non-numeric non-command input with one clarify message, in
both cases leaving `current_step`, `status` and `selected_idea` unchanged;
the embedding is a total function, so no input crashes. -/
theorem selection_index_accepted_iff (env : Env) (s : WorkflowState) (um : String)
    (ideas : List Idea)
    (hstep : s.current_step = "waiting_for_selection")
    (hideas : s.content_ideas = some ideas) (hne : ideas ≠ []) :
    (pyIsDigit (pyLower (pyStrip um)) = true →
      (((processSelectionMessage env s um).current_step = "waiting_for_approval" ∧
        (processSelectionMessage env s um).selected_idea =
          some (ideas.getD (digitsToNat (pyLower (pyStrip um)) - 1) ⟨"", ""⟩)) ↔
        (1 ≤ digitsToNat (pyLower (pyStrip um)) ∧
          digitsToNat (pyLower (pyStrip um)) ≤ ideas.length)) ∧
      (¬ (1 ≤ digitsToNat (pyLower (pyStrip um)) ∧
            digitsToNat (pyLower (pyStrip um)) ≤ ideas.length) →
        (processSelectionMessage env s um).current_step = s.current_step ∧
        (processSelectionMessage env s um).status = s.status ∧
        (processSelectionMessage env s um).selected_idea = s.selected_idea ∧
        (processSelectionMessage env s um).messages = s.messages ++
          [⟨"user", um, "chat"⟩,
           ⟨"ai", "Please enter a number between 1 and " ++ toString ideas.length ++ ".",
             "agent_result"⟩])) ∧
    (pyIsDigit (pyLower (pyStrip um)) = false →
      pyIn "refine" (pyLower (pyStrip um)) = false →
      pyIn "more" (pyLower (pyStrip um)) = false →
      (processSelectionMessage env s um).current_step = s.current_step ∧
      (processSelectionMessage env s um).status = s.status ∧
      (processSelectionMessage env s um).selected_idea = s.selected_idea ∧
      (processSelectionMessage env s um).messages = s.messages ++
        [⟨"user", um, "chat"⟩,
         ⟨"ai", "Please select an idea by number, or type ’refine’.", "agent_result"⟩]) := by
  have hTr : ideasTruthy (some ideas) = true := by
    cases ideas with
    | nil => exact absurd rfl hne
    | cons a l => simp [ideasTruthy]
  constructor
  · intro hd
    by_cases hin : 1 ≤ digitsToNat (pyLower (pyStrip um)) ∧
        digitsToNat (pyLower (pyStrip um)) ≤ ideas.length
    · constructor
      · constructor
        · intro _
          exact hin
        · intro _
          simp [processSelectionMessage, selectionStep, addMsg, hd, hTr, hideas, hin]
      · intro hcon
        exact absurd hin hcon
    · constructor
      · constructor
        · intro hacc
          exfalso
          have hcs : (processSelectionMessage env s um).current_step = s.current_step := by
            simp [processSelectionMessage, selectionStep, addMsg, hd, hTr, hideas, hin]
          rw [hcs, hstep] at hacc
          exact absurd hacc.1 (by decide)
        · intro h
          exact absurd h hin
      · intro _
        simp [processSelectionMessage, selectionStep, addMsg, hd, hTr, hideas, hin]
  · intro hd h1 h2
    simp [processSelectionMessage, selectionStep, addMsg, hd, h1, h2]

/-- Witness for C1: with two ideas, input `"2"` selects the second idea and
moves to approval; input `"7"` leaves the step unchanged. -/
theorem selection_index_accepted_iff_witness :
    (processSelectionMessage sampleEnv sampleSelState "2").current_step =
      "waiting_for_approval" ∧
    (processSelectionMessage sampleEnv sampleSelState "2").selected_idea = some ideaB ∧
    (processSelectionMessage sampleEnv sampleSelState "7").current_step =
      "waiting_for_selection" := by
  have h2 := selection_index_accepted_iff sampleEnv sampleSelState "2" [ideaA, ideaB]
    rfl rfl (by decide)
  have h7 := selection_index_accepted_iff sampleEnv sampleSelState "7" [ideaA, ideaB]
    rfl rfl (by decide)
  refine ⟨?_, ?_, ?_⟩
  · exact ((h2.1 (by decide)).1.mpr (by decide)).1
  · have := ((h2.1 (by decide)).1.mpr (by decide)).2
    simpa using this
  · have := ((h7.1 (by decide)).2 (by decide)).1
    simpa using this

/-- Counterexample to C2 as stated: at `waiting_for_approval` the input
`"refine"` (which the claim says moves `current_step` to `refining`) leaves
the live handler's step unchanged — `agent_runner.py` only recognizes
`change`/`edit` for refinement. -/
theorem approval_refine_keyword_cex :
    pyIn "refine" (pyLower "refine") = true ∧
    (approvalStep sampleApprState "refine").current_step = "waiting_for_approval" ∧
    ¬ (approvalStep sampleApprState "refine").current_step = "refining" := by
  refine ⟨by decide, by decide, by decide⟩

/-- C2 (amended): at `waiting_for_approval`, `publish`/`post` moves both
handlers to `publishing`; otherwise the refining keywords are `change`/`edit`
in `agent_runner.py` and `refine`/`change` in `agent_runner_new.py`; rules
are checked in that priority order so the first match wins; any other input
(for `agent_runner_new.py` also excluding `new idea`) appends the
prompt-for-decision message and leaves `current_step` and `status`
unchanged. -/
theorem approval_keyword_routing (s : WorkflowState) (um : String) :
    ((pyIn "publish" (pyLower um) || pyIn "post" (pyLower um)) = true →
      (approvalStep s um).current_step = "publishing" ∧
      (approvalStepNew s um).current_step = "publishing") ∧
    ((pyIn "publish" (pyLower um) || pyIn "post" (pyLower um)) = false →
      (pyIn "change" (pyLower um) || pyIn "edit" (pyLower um)) = true →
      (approvalStep s um).current_step = "refining") ∧
    ((pyIn "publish" (pyLower um) || pyIn "post" (pyLower um)) = false →
      (pyIn "refine" (pyLower um) || pyIn "change" (pyLower um)) = true →
      (approvalStepNew s um).current_step = "refining") ∧
    ((pyIn "publish" (pyLower um) || pyIn "post" (pyLower um)) = false →
      (pyIn "change" (pyLower um) || pyIn "edit" (pyLower um)) = false →
      (approvalStep s um).current_step = s.current_step ∧
      (approvalStep s um).status = s.status ∧
      (approvalStep s um).messages = s.messages ++
        [⟨"ai", "I’m ready to publish your post when you are. Type ’publish’ to proceed, or let me know what changes you’d like.", "agent_result"⟩]) ∧
    ((pyIn "publish" (pyLower um) || pyIn "post" (pyLower um)) = false →
      (pyIn "refine" (pyLower um) || pyIn "change" (pyLower um)) = false →
      pyIn "new idea" (pyLower um) = false →
      (approvalStepNew s um).current_step = s.current_step ∧
      (approvalStepNew s um).status = s.status ∧
      (approvalStepNew s um).messages = s.messages ++
        [⟨"ai", "🤔 **I’m ready to publish when you are.** Please type:\n• **’publish’** to proceed\n• **’refine’** to make changes\n• **’new idea’** to select a different idea", "agent_result"⟩]) := by
  refine ⟨?_, ?_, ?_, ?_, ?_⟩
  · intro h1
    constructor <;> simp [approvalStep, approvalStepNew, addMsg, h1]
  · intro h1 h2
    simp [approvalStep, addMsg, h1, h2]
  · intro h1 h2
    simp [approvalStepNew, addMsg, h1, h2]
  · intro h1 h2
    simp [approvalStep, addMsg, h1, h2]
  · intro h1 h2 h3
    simp [approvalStepNew, addMsg, h1, h2, h3]

/-- Witness for C2 (amended): `"publish"` moves to `publishing`, and
`"edit this a bit"` moves the live handler to `refining`. -/
theorem approval_keyword_routing_witness :
    (approvalStep sampleApprState "publish").current_step = "publishing" ∧
    (approvalStep sampleApprState "edit this a bit").current_step = "refining" := by
  constructor
  · exact ((approval_keyword_routing sampleApprState "publish").1 (by decide)).1
  · exact ((approval_keyword_routing sampleApprState "edit this a bit").2.1
      (by decide) (by decide))

/-- Counterexample to C3 as stated: at `publishing`, the input `"NONE"` is
neither the literal `"none"` nor of URL shape, so the claim says it is
rejected with no publish call; the live handler compares
`strip().lower() == "none"`, treats it as the no-media case, and proceeds to
the publish attempt. -/
theorem publishing_validation_cex :
    ("NONE" : String) ≠ "none" ∧ urlShape "NONE" = false ∧
    (publishingStep sampleEnv samplePubState "NONE").publishAttempted = true ∧
    (publishingStep sampleEnv samplePubState "NONE").state.messages =
      samplePubState.messages ++
        [⟨"ai", "Publishing your post to LinkedIn...", "agent_result"⟩,
         ⟨"ai", "✅ Your LinkedIn post has been published successfully!", "agent_result"⟩] := by
  refine ⟨by decide, by decide, by decide, by decide⟩

/-- C3 (amended): at `publishing` (live handler), a non-empty input whose
stripped lower-cased form is not `none` and whose stripped form does not
match `^https?://` is rejected — exactly one validation message is appended,
`current_step` and `status` stay unchanged, and neither the media upload nor
the publish call is attempted; an input equal to `none` after strip/lower, or
a well-shaped URL, proceeds to the publish attempt (reaching the publish call
whenever credentials are configured). -/
theorem publishing_media_validation (env : Env) (s : WorkflowState) (um : String)
    (hne : strTruthy um = true) :
    (pyLower (pyStrip um) ≠ "none" → urlShape (pyStrip um) = false →
      (publishingStep env s um).state.current_step = s.current_step ∧
      (publishingStep env s um).state.status = s.status ∧
      (publishingStep env s um).state.media_url = s.media_url ∧
      (publishingStep env s um).state.messages = s.messages ++
        [⟨"ai", "⚠️ Please provide a valid image/video URL or type ’none’.", "agent_result"⟩] ∧
      (publishingStep env s um).uploadAttempted = false ∧
      (publishingStep env s um).publishAttempted = false) ∧
    ((pyLower (pyStrip um) = "none" ∨ urlShape (pyStrip um) = true) →
      env.hasToken = true →
      (publishingStep env s um).publishAttempted = true) := by
  constructor
  · intro hnone hurl
    simp [publishingStep, addMsg, hne, hnone, hurl]
  · intro hok htok
    rcases hok with h | h
    · cases hpe : env.publishError <;>
        simp [publishingStep, addMsg, hne, h, htok, hpe]
    · by_cases hn : pyLower (pyStrip um) = "none" <;>
        cases hpe : env.publishError <;>
          simp [publishingStep, addMsg, hne, h, hn, htok, hpe]

/-- Witness for C3 (amended): `"not-a-url"` is rejected in place with no
publish attempt; `"none"` proceeds to the publish attempt. -/
theorem publishing_media_validation_witness :
    (publishingStep sampleEnv samplePubState "not-a-url").state.current_step = "publishing" ∧
    (publishingStep sampleEnv samplePubState "not-a-url").publishAttempted = false ∧
    (publishingStep sampleEnv samplePubState "none").publishAttempted = true := by
  have h := publishing_media_validation sampleEnv samplePubState "not-a-url" (by decide)
  have h2 := publishing_media_validation sampleEnv samplePubState "none" (by decide)
  refine ⟨?_, ?_, ?_⟩
  · exact (h.1 (by decide) (by decide)).1
  · exact (h.1 (by decide) (by decide)).2.2.2.2.2
  · exact h2.2 (Or.inl (by decide)) rfl

/-- C4: at `publishing` (live handler), when `LINKEDIN_ACCESS_TOKEN` is not
configured and the input passes media validation (empty, `none`, or a
well-shaped URL), the status becomes `error`, the log ends with the
credentials-missing message, and neither the media upload nor the publish
call is attempted. -/
theorem publishing_missing_credentials (env : Env) (s : WorkflowState) (um : String)
    (htok : env.hasToken = false)
    (hok : strTruthy um = false ∨ pyLower (pyStrip um) = "none" ∨
      urlShape (pyStrip um) = true) :
    (publishingStep env s um).state.status = "error" ∧
    (publishingStep env s um).state.messages.getLast? =
      some ⟨"ai", "❌ LinkedIn credentials not configured (LINKEDIN_ACCESS_TOKEN).",
        "agent_result"⟩ ∧
    (publishingStep env s um).uploadAttempted = false ∧
    (publishingStep env s um).publishAttempted = false := by
  rcases hok with h | h | h
  · simp [publishingStep, addMsg, htok, h]
  · simp [publishingStep, addMsg, htok, h]
  · by_cases hn : pyLower (pyStrip um) = "none" <;>
      by_cases hs : strTruthy um = false <;>
        simp [publishingStep, addMsg, htok, h, hn, hs]

/-- Witness for C4: with no token configured, input `"none"` yields
`status = error` and no publish attempt. -/
theorem publishing_missing_credentials_witness :
    (publishingStep sampleEnvNoTok samplePubState "none").state.status = "error" ∧
    (publishingStep sampleEnvNoTok samplePubState "none").publishAttempted = false := by
  have h := publishing_missing_credentials sampleEnvNoTok samplePubState "none"
    rfl (Or.inr (Or.inl (by decide)))
  exact ⟨h.1, h.2.2.2⟩

/-- Counterexample to C5 as stated: in the live handler used by `main.py`,
the input `"cancel"` at `waiting_for_selection` does not move the workflow to
a cancelled state — status and step are both unchanged (it falls to the
clarify branch). -/
theorem cancel_reachability_cex :
    (processSelectionMessage sampleEnv sampleSelState "cancel").status =
      "waiting_for_user" ∧
    (processSelectionMessage sampleEnv sampleSelState "cancel").current_step =
      "waiting_for_selection" ∧
    ¬ (processSelectionMessage sampleEnv sampleSelState "cancel").status = "cancelled" := by
  refine ⟨by decide, by decide, by decide⟩

/-- C5 (amended): in `agent_runner_new.py`'s selection handler, a non-digit
input containing `cancel` (and none of `refine`/`more`/`help`) sets `status`
to `cancelled` and reports step `cancelled` in the response while the stored
`current_step` stays unchanged; neither approval handler recognizes `cancel`
(status and step unchanged there), so `cancelled` is not reachable from
`waiting_for_approval`; the live selection handler has no cancel rule at
all. -/
theorem cancel_behavior (env : Env) (s : WorkflowState) (um : String)
    (hd : pyIsDigit um = false)
    (h1 : pyIn "refine" (pyLower um) = false) (h2 : pyIn "more" (pyLower um) = false)
    (h3 : pyIn "help" (pyLower um) = false) (hc : pyIn "cancel" (pyLower um) = true) :
    ((selectionStepNew env s um).state.status = "cancelled" ∧
     (selectionStepNew env s um).reportedStep = "cancelled" ∧
     (selectionStepNew env s um).state.current_step = s.current_step ∧
     (selectionStepNew env s um).state.messages = s.messages ++
       [⟨"ai", "❌ **Workflow cancelled.** You can start a new one anytime.",
         "agent_result"⟩]) ∧
    (∀ s2 : WorkflowState,
      (approvalStep s2 "cancel").current_step = s2.current_step ∧
      (approvalStep s2 "cancel").status = s2.status ∧
      (approvalStepNew s2 "cancel").current_step = s2.current_step ∧
      (approvalStepNew s2 "cancel").status = s2.status) ∧
    (∀ (env2 : Env) (s3 : WorkflowState),
      (selectionStep env2 s3 "cancel").status = s3.status ∧
      (selectionStep env2 s3 "cancel").current_step = s3.current_step) := by
  refine ⟨?_, ?_, ?_⟩
  · simp [selectionStepNew, addMsg, hd, h1, h2, h3, hc]
  · intro s2
    have e1 : (pyIn "publish" (pyLower "cancel") || pyIn "post" (pyLower "cancel")) = false := by
      decide
    have e2 : (pyIn "change" (pyLower "cancel") || pyIn "edit" (pyLower "cancel")) = false := by
      decide
    have e3 : (pyIn "refine" (pyLower "cancel") || pyIn "change" (pyLower "cancel")) = false := by
      decide
    have e4 : pyIn "new idea" (pyLower "cancel") = false := by decide
    refine ⟨?_, ?_, ?_, ?_⟩ <;> simp [approvalStep, approvalStepNew, addMsg, e1, e2, e3, e4]
  · intro env2 s3
    have d1 : pyIsDigit (pyLower (pyStrip "cancel")) = false := by decide
    have d2 : pyIn "refine" (pyLower (pyStrip "cancel")) = false := by decide
    have d3 : pyIn "more" (pyLower (pyStrip "cancel")) = false := by decide
    constructor <;> simp [selectionStep, addMsg, d1, d2, d3]

/-- Witness for C5 (amended): in the duplicate handler, `"cancel"` sets the
status to `cancelled` while the stored step remains `waiting_for_selection`. -/
theorem cancel_behavior_witness :
    (selectionStepNew sampleEnv sampleSelState "cancel").state.status = "cancelled" ∧
    (selectionStepNew sampleEnv sampleSelState "cancel").state.current_step =
      "waiting_for_selection" := by
  have h := cancel_behavior sampleEnv sampleSelState "cancel"
    (by decide) (by decide) (by decide) (by decide) (by decide)
  exact ⟨h.1.1, h.1.2.2.1⟩

/-- C6: `save` then `load` on a fresh registry reproduces the stored
`WorkflowThread`, the status mirror, the Message Log and the agent results,
field for field; and loading an absent workflow id returns `None` and
mutates nothing. -/
theorem checkpoint_roundtrip (m : Manager) (fs : FS) (id now : String)
    (wf : WorkflowThread) (st : String) (msgs : List AgentMessage) (ars : List AgentResult)
    (hw : m.workflows id = some wf) (hs : m.workflow_status id = some st)
    (hm : m.workflow_messages id = some msgs) (ha : m.agent_results id = some ars) :
    ((loadCheckpoint freshManager (saveCheckpoint m fs id now) id).1 =
        some (mkCheckpoint m id now) ∧
      (loadCheckpoint freshManager (saveCheckpoint m fs id now) id).2.workflows id =
        some wf ∧
      (loadCheckpoint freshManager (saveCheckpoint m fs id now) id).2.workflow_status id =
        some st ∧
      (loadCheckpoint freshManager (saveCheckpoint m fs id now) id).2.workflow_messages id =
        some msgs ∧
      (loadCheckpoint freshManager (saveCheckpoint m fs id now) id).2.agent_results id =
        some ars) ∧
    (∀ (id2 : String) (fs2 : FS) (m2 : Manager), fsRead fs2 id2 = none →
      loadCheckpoint m2 fs2 id2 = (none, m2)) := by
  constructor
  · have hread : fsRead (saveCheckpoint m fs id now) id = some (mkCheckpoint m id now) :=
      fsRead_fsWrite_self fs id _
    refine ⟨by simp [loadCheckpoint, hread], ?_, ?_, ?_, ?_⟩ <;>
      simp [loadCheckpoint, hread, hydrate, mkCheckpoint, hw, hs, hm, ha, setMap]
  · intro id2 fs2 m2 habs
    simp [loadCheckpoint, habs]

/-- Witness for C6: a save/load round trip through an empty directory
restores the concrete workflow and its message log. -/
theorem checkpoint_roundtrip_witness :
    (loadCheckpoint freshManager (saveCheckpoint mgrEx [] "wf1" "t1") "wf1").2.workflows
      "wf1" = some wfEx ∧
    (loadCheckpoint freshManager (saveCheckpoint mgrEx [] "wf1" "t1") "wf1").2.workflow_messages
      "wf1" = some [amEx] := by
  have h := checkpoint_roundtrip mgrEx [] "wf1" "t1" wfEx "waiting_for_selection" [amEx]
    [arEx] (by decide) (by decide) (by decide) (by decide)
  exact ⟨h.1.2.1, h.1.2.2.2.1⟩

/-- Counterexample to C7 as stated: the write trace of `_save_checkpoint`
contains an observable state (the file truncated by `open("w")` before
`json.dump` runs) that is neither absent nor a complete record, so the write
is not complete-or-absent. -/
theorem checkpoint_write_not_atomic_cex :
    ¬ ((saveWriteTrace mgrEx "wf1" "t1").all completeOrAbsent = true) := by decide

/-- C7 (amended): `_save_checkpoint` finishes with the complete record at the
final path, but it opens the destination file directly (truncate in place,
then write) rather than writing to a temporary file and atomically renaming,
so a concurrent reader can observe the truncated, incomplete file. -/
theorem checkpoint_write_in_place (m : Manager) (id now : String) :
    (saveWriteTrace m id now).getLast? = some (some (some (mkCheckpoint m id now))) ∧
    some (none : Option Checkpoint) ∈ saveWriteTrace m id now ∧
    completeOrAbsent (some (none : Option Checkpoint)) = false := by
  refine ⟨rfl, ?_, rfl⟩
  simp [saveWriteTrace]

/-- C8: `_notify_subscribers` is best-effort — a callback that raises has the
exception caught and logged in place, the function itself always returns
normally to the notifying caller (the embedding is a total function into the
per-callback outcome list), and every subsequent callback in the list is
still invoked: the outcome list always has one entry per registered
callback. -/
theorem notify_best_effort (pre post : List (String → Except String Unit))
    (bad : String → Except String Unit) (d e : String)
    (hb : bad d = Except.error e) :
    (notifySubscribers (pre ++ bad :: post) d =
      notifySubscribers pre d ++
        some ("Error in subscriber callback: " ++ e) :: notifySubscribers post d) ∧
    (∀ cbs : List (String → Except String Unit),
      (notifySubscribers cbs d).length = cbs.length) := by
  constructor
  · simp [notifySubscribers, runCallback, hb]
  · intro cbs
    simp [notifySubscribers]

/-- Witness for C8: with a raising callback between two normal ones, the
error is logged in place and both neighbours still run. -/
theorem notify_best_effort_witness :
    notifySubscribers ([goodCb] ++ badCb :: [goodCb]) "evt" =
      notifySubscribers [goodCb] "evt" ++
        some ("Error in subscriber callback: " ++ "boom") :: notifySubscribers [goodCb] "evt" := by
  exact (notify_best_effort [goodCb] [goodCb] badCb "evt" "boom" rfl).1

/-- Counterexample to C9 as stated: `delete_workflow` is an operation after
which the Message Log length strictly decreases (from one entry to none), so
the length is not monotonically non-decreasing across every sequence of
operations. -/
theorem message_log_delete_cex :
    ¬ ((msgLog sysEx "wf1").length ≤
        (msgLog (applyOp sysEx (Op.deleteWorkflow "wf1")) "wf1").length) := by decide

/-- C9 (amended): across every registry operation except `delete_workflow`
(and except re-adding a workflow id whose log is non-empty, since
`add_workflow` resets the log to empty), the Message Log is extended
append-only — the old log is a prefix of the new log, so its length is
non-decreasing and entries are never mutated, removed, or reordered. -/
theorem message_log_append_only (s : MSystem) (op : Op) (id : String)
    (hdel : ∀ i, op ≠ Op.deleteWorkflow i)
    (hadd : ∀ wf now, op = Op.addWorkflow wf now →
      (s.mgr.workflow_messages wf.id).getD [] = []) :
    ∃ t, msgLog (applyOp s op) id = msgLog s id ++ t := by
  cases op with
  | addWorkflow wf now =>
    have h := hadd wf now rfl
    by_cases hid : id = wf.id
    · subst hid
      exact ⟨[], by simp [applyOp, addWorkflowFn, msgLog, setMap, h]⟩
    · exact ⟨[], by simp [applyOp, addWorkflowFn, msgLog, setMap, hid]⟩
  | updateStatus id0 st now =>
    cases hw : s.mgr.workflows id0 with
    | none => exact ⟨[], by simp [applyOp, updateStatusFn, hw, msgLog]⟩
    | some wf => exact ⟨[], by simp [applyOp, updateStatusFn, hw, msgLog]⟩
  | addAgentResult id0 agent result now =>
    cases ha : s.mgr.agent_results id0 with
    | none => exact ⟨[], by simp [applyOp, addAgentResultFn, ha, msgLog]⟩
    | some ars =>
      cases hm : s.mgr.workflow_messages id0 with
      | none =>
        exact ⟨[], by simp [applyOp, addAgentResultFn, addMessageFn, ha, hm, msgLog]⟩
      | some msgs =>
        by_cases hid : id = id0
        · subst hid
          refine ⟨[⟨agent, result, now, if agent = "user" then "chat" else "agent_result"⟩], ?_⟩
          simp [applyOp, addAgentResultFn, addMessageFn, ha, hm, msgLog, setMap]
        · exact ⟨[], by
            simp [applyOp, addAgentResultFn, addMessageFn, ha, hm, msgLog, setMap, hid]⟩
  | addMessage id0 content snd now =>
    cases hm : s.mgr.workflow_messages id0 with
    | none => exact ⟨[], by simp [applyOp, addMessageFn, hm, msgLog]⟩
    | some msgs =>
      by_cases hid : id = id0
      · subst hid
        refine ⟨[⟨snd, content, now, if snd = "user" then "chat" else "agent_result"⟩], ?_⟩
        simp [applyOp, addMessageFn, hm, msgLog, setMap]
      · exact ⟨[], by simp [applyOp, addMessageFn, hm, msgLog, setMap, hid]⟩
  | deleteWorkflow i => exact absurd rfl (hdel i)

/-- Witness for C9 (amended): adding a chat message extends the concrete
workflow's log by a suffix. -/
theorem message_log_append_only_witness :
    ∃ t, msgLog (applyOp sysEx (Op.addMessage "wf1" "hello" "user" "t2")) "wf1" =
      msgLog sysEx "wf1" ++ t := by
  exact message_log_append_only sysEx (Op.addMessage "wf1" "hello" "user" "t2") "wf1"
    (by intro i h; cases h) (by intro wf now h; cases h)

/-- C10: `delete_workflow` removes only the four in-memory registry entries
for the id (leaving every other id untouched) and does not touch the
checkpoint directory, so a later `load_all_checkpoints` — as on restart —
rehydrates the deleted workflow from its still-present checkpoint file. -/
theorem delete_preserves_checkpoints (s : MSystem) (id : String) (c : Checkpoint)
    (wf : WorkflowThread)
    (hread : fsRead s.fs id = some c)
    (hnd : (s.fs.map Prod.fst).Nodup)
    (hwf : c.workflow = some wf) :
    (deleteWorkflowFn s id).fs = s.fs ∧
    (deleteWorkflowFn s id).mgr.workflows id = none ∧
    (deleteWorkflowFn s id).mgr.workflow_status id = none ∧
    (deleteWorkflowFn s id).mgr.agent_results id = none ∧
    (deleteWorkflowFn s id).mgr.workflow_messages id = none ∧
    (∀ id2, ¬ (id2 = id) →
      (deleteWorkflowFn s id).mgr.workflows id2 = s.mgr.workflows id2 ∧
      (deleteWorkflowFn s id).mgr.workflow_status id2 = s.mgr.workflow_status id2 ∧
      (deleteWorkflowFn s id).mgr.agent_results id2 = s.mgr.agent_results id2 ∧
      (deleteWorkflowFn s id).mgr.workflow_messages id2 = s.mgr.workflow_messages id2) ∧
    (loadAllCheckpoints (deleteWorkflowFn s id).mgr
        (deleteWorkflowFn s id).fs).workflows id = some wf ∧
    (loadAllCheckpoints (deleteWorkflowFn s id).mgr
        (deleteWorkflowFn s id).fs).workflow_messages id = some c.messages ∧
    (loadAllCheckpoints (deleteWorkflowFn s id).mgr
        (deleteWorkflowFn s id).fs).agent_results id = some c.agent_results := by
  obtain ⟨l1, l2, l3, l4⟩ :=
    loadAll_found s.fs (deleteWorkflowFn s id).mgr id c wf hread hnd hwf
  refine ⟨rfl, by simp [deleteWorkflowFn, setMap], by simp [deleteWorkflowFn, setMap],
    by simp [deleteWorkflowFn, setMap], by simp [deleteWorkflowFn, setMap], ?_, l1, l3, l4⟩
  intro id2 h2
  refine ⟨?_, ?_, ?_, ?_⟩ <;> simp [deleteWorkflowFn, setMap, h2]

/-- Witness for C10: deleting the freshly added workflow leaves its
checkpoint file intact, and `load_all_checkpoints` restores it. -/
theorem delete_preserves_checkpoints_witness :
    (deleteWorkflowFn sysW "wf1").fs = sysW.fs ∧
    (loadAllCheckpoints (deleteWorkflowFn sysW "wf1").mgr
        (deleteWorkflowFn sysW "wf1").fs).workflows "wf1" = some wfEx := by
  have h := delete_preserves_checkpoints sysW "wf1"
    (mkCheckpoint sysW.mgr "wf1" "t0") wfEx (by decide) (by decide) (by decide)
  exact ⟨h.1, h.2.2.2.2.2.2.1⟩
